import Mathlib

/-!
Verification of the JMTD-FINAL pipeline (fetcher `final.py`, extractor
`jtmd_scraper5.py`, orchestrator `jpx_master_processor.py`) against its
natural-language specification.  The Python code is shallowly embedded:
spreadsheet grids become lists of rows of cells, Python dicts become
association lists with insert-or-overwrite semantics, and the stateful
loops become folds over explicit state records.
-/

namespace JMTD

/-- A raw spreadsheet cell as seen by the extractor after `pandas` reads the
`Value` sheet: `na` models `NaN`/`None`, `val s` models any other value whose
Python `str()` form is `s`. -/
inductive Cell
  | na
  | val (s : String)
  deriving DecidableEq, Repr

/-- Model of Python `str.strip()`: drop leading and trailing whitespace. -/
def pyStrip (s : String) : String :=
  ⟨((s.data.dropWhile Char.isWhitespace).reverse.dropWhile Char.isWhitespace).reverse⟩

/-- Model of Python `str.upper()` (ASCII case mapping). -/
def pyUpper (s : String) : String :=
  ⟨s.data.map Char.toUpper⟩

/-- Model of Python `sub in s` (substring containment). -/
def containsSubstr (s sub : String) : Bool :=
  s.data.tails.any (fun t => sub.data.isPrefixOf t)

/-- Model of Python `s.startswith(p)`. -/
def pyStartsWith (s p : String) : Bool :=
  p.data.isPrefixOf s.data

/-- `preserve_number_formatting` from `jtmd_scraper5.py`: empty/NaN cells map
to `""`; any other value is stringified, stripped, and returned as-is whether
or not it contains commas (both branches of the final `if` return
`str_value`). -/
def preserve_number_formatting : Cell → String
  | Cell.na => ""
  | Cell.val v =>
    if v = "" then ""
    else
      let str_value := pyStrip v
      if str_value = "" then ""
      else if containsSubstr str_value "," then str_value
      else str_value

/-- A raw grid: `df.values.tolist()`, a list of rows of cells (possibly
ragged or empty). -/
abbrev Grid := List (List Cell)

/-- Bounds-checked cell access, mirroring the guards
`test_row < len(data_rows) and len(data_rows[test_row]) > 6` (dynamic) and
`row_idx < len(data_rows) and col_idx < len(data_rows[row_idx])` (fixed):
`none` exactly when the index pair is out of range. -/
def cellAt (g : Grid) (r c : Nat) : Option Cell :=
  match g.get? r with
  | some row => row.get? c
  | none => none

/-- The formatted value the extractor sees at a coordinate: out-of-range
probes behave like empty cells. -/
def formatted_cell (g : Grid) (r c : Nat) : String :=
  match cellAt g r c with
  | some raw => preserve_number_formatting raw
  | none => ""

/-- One entry of `_initialize_category_structure`. -/
structure CategoryInfo where
  base_row : Nat
  search_offsets : List Nat
  deriving DecidableEq, Repr

/-- `_initialize_category_structure` from `jtmd_scraper5.py`: the 14 balance
categories with their base rows and probe offsets. -/
def category_structure : List (String × CategoryInfo) :=
  [("PROP", ⟨13, [0, 1, 2]⟩),
   ("BROKER", ⟨16, [0, 1, 2]⟩),
   ("TOT", ⟨19, [0, 1, 2]⟩),
   ("INST", ⟨24, [0, 1, 2]⟩),
   ("INDIV", ⟨27, [0, 1, 2]⟩),
   ("FOR", ⟨30, [0, 1, 2]⟩),
   ("SECCOS", ⟨33, [0, 1, 2]⟩),
   ("INVTRUST", ⟨38, [0, 1, 2]⟩),
   ("BUSCORP", ⟨41, [0, 1, 2]⟩),
   ("OTHINST", ⟨44, [0, 1, 2]⟩),
   ("INSTFIN", ⟨47, [0, 1, 2]⟩),
   ("INS", ⟨52, [0, 1, 2]⟩),
   ("BK", ⟨55, [0, 1, 2]⟩),
   ("OTHERFIN", ⟨58, [0, 1, 2]⟩)]

/-- The balance column code built in `find_balance_in_category`:
the f-string `JTMD.{sheet_type.upper()}.BAL.{category_key}.M`. -/
def balance_code (sheet_type category_key : String) : String :=
  "JTMD." ++ pyUpper sheet_type ++ ".BAL." ++ category_key ++ ".M"

/-- The offset loop of `find_balance_in_category`: walk the offsets in order,
probing column index 6 of row `base_row + offset`, and return the first
non-empty formatted value. -/
def probe_offsets (g : Grid) (base_row : Nat) : List Nat → Option String
  | [] => none
  | offset :: rest =>
    match cellAt g (base_row + offset) 6 with
    | some raw_value =>
      let formatted_value := preserve_number_formatting raw_value
      if formatted_value ≠ "" then some formatted_value
      else probe_offsets g base_row rest
    | none => probe_offsets g base_row rest

/-- `find_balance_in_category` from `jtmd_scraper5.py`: unknown category keys
yield `None`; otherwise the probe window of the category is scanned and the
first non-empty formatted value is returned with its balance column code. -/
def find_balance_in_category (g : Grid) (category_key sheet_type : String) :
    Option (String × String) :=
  match category_structure.lookup category_key with
  | none => none
  | some category_info =>
    match probe_offsets g category_info.base_row category_info.search_offsets with
    | some formatted_value => some (balance_code sheet_type category_key, formatted_value)
    | none => none

/-- Python dict assignment `d[k] = v`: overwrite the existing binding of `k`
in place, else append a new binding. -/
def dictInsert {β : Type} (d : List (String × β)) (k : String) (v : β) :
    List (String × β) :=
  match d with
  | [] => [(k, v)]
  | (k', v') :: rest =>
    if k' = k then (k', v) :: rest else (k', v') :: dictInsert rest k v

/-- Python `d.update(e)`: insert every binding of `e` into `d` in order. -/
def dictUpdate {β : Type} (d e : List (String × β)) : List (String × β) :=
  e.foldl (fun acc kv => dictInsert acc kv.1 kv.2) d

/-- `extract_dynamic_balance_coordinates` from `jtmd_scraper5.py`: run
`find_balance_in_category` for every category key and collect the hits. -/
def extract_dynamic_balance_coordinates (g : Grid) (sheet_type : String) :
    List (String × String) :=
  (category_structure.map Prod.fst).foldl
    (fun extracted_data category_key =>
      match find_balance_in_category g category_key sheet_type with
      | some result => dictInsert extracted_data result.1 result.2
      | none => extracted_data)
    []

/-- A fixed coordinate of `_initialize_fixed_mappings`. -/
structure Coord where
  row : Nat
  col : Nat
  deriving DecidableEq, Repr

/-- `_initialize_fixed_mappings` from `jtmd_scraper5.py`: the 56 fixed
sales/purchases coordinates (14 sales + 14 purchases, for ETF and REIT). -/
def fixed_mappings : List (String × Coord) :=
  [("JTMD.ETF.SAL.PROP.M", ⟨13, 4⟩),
   ("JTMD.ETF.SAL.BROKER.M", ⟨16, 4⟩),
   ("JTMD.ETF.SAL.TOT.M", ⟨19, 4⟩),
   ("JTMD.ETF.SAL.INST.M", ⟨24, 4⟩),
   ("JTMD.ETF.SAL.INDIV.M", ⟨27, 4⟩),
   ("JTMD.ETF.SAL.FOR.M", ⟨30, 4⟩),
   ("JTMD.ETF.SAL.SECCOS.M", ⟨33, 4⟩),
   ("JTMD.ETF.SAL.INVTRUST.M", ⟨38, 4⟩),
   ("JTMD.ETF.SAL.BUSCORP.M", ⟨41, 4⟩),
   ("JTMD.ETF.SAL.OTHINST.M", ⟨44, 4⟩),
   ("JTMD.ETF.SAL.INSTFIN.M", ⟨47, 4⟩),
   ("JTMD.ETF.SAL.INS.M", ⟨52, 4⟩),
   ("JTMD.ETF.SAL.BK.M", ⟨55, 4⟩),
   ("JTMD.ETF.SAL.OTHERFIN.M", ⟨58, 4⟩),
   ("JTMD.ETF.PURCH.PROP.M", ⟨14, 4⟩),
   ("JTMD.ETF.PURCH.BROKER.M", ⟨17, 4⟩),
   ("JTMD.ETF.PURCH.TOT.M", ⟨20, 4⟩),
   ("JTMD.ETF.PURCH.INST.M", ⟨25, 4⟩),
   ("JTMD.ETF.PURCH.INDIV.M", ⟨28, 4⟩),
   ("JTMD.ETF.PURCH.FOR.M", ⟨31, 4⟩),
   ("JTMD.ETF.PURCH.SECCOS.M", ⟨34, 4⟩),
   ("JTMD.ETF.PURCH.INVTRUST.M", ⟨39, 4⟩),
   ("JTMD.ETF.PURCH.BUSCORP.M", ⟨42, 4⟩),
   ("JTMD.ETF.PURCH.OTHINST.M", ⟨45, 4⟩),
   ("JTMD.ETF.PURCH.INSTFIN.M", ⟨48, 4⟩),
   ("JTMD.ETF.PURCH.INS.M", ⟨53, 4⟩),
   ("JTMD.ETF.PURCH.BK.M", ⟨56, 4⟩),
   ("JTMD.ETF.PURCH.OTHERFIN.M", ⟨59, 4⟩),
   ("JTMD.REIT.SAL.PROP.M", ⟨13, 4⟩),
   ("JTMD.REIT.SAL.BROKER.M", ⟨16, 4⟩),
   ("JTMD.REIT.SAL.TOT.M", ⟨19, 4⟩),
   ("JTMD.REIT.SAL.INST.M", ⟨24, 4⟩),
   ("JTMD.REIT.SAL.INDIV.M", ⟨27, 4⟩),
   ("JTMD.REIT.SAL.FOR.M", ⟨30, 4⟩),
   ("JTMD.REIT.SAL.SECCOS.M", ⟨33, 4⟩),
   ("JTMD.REIT.SAL.INVTRUST.M", ⟨38, 4⟩),
   ("JTMD.REIT.SAL.BUSCORP.M", ⟨41, 4⟩),
   ("JTMD.REIT.SAL.OTHINST.M", ⟨44, 4⟩),
   ("JTMD.REIT.SAL.INSTFIN.M", ⟨47, 4⟩),
   ("JTMD.REIT.SAL.INS.M", ⟨52, 4⟩),
   ("JTMD.REIT.SAL.BK.M", ⟨55, 4⟩),
   ("JTMD.REIT.SAL.OTHERFIN.M", ⟨58, 4⟩),
   ("JTMD.REIT.PURCH.PROP.M", ⟨14, 4⟩),
   ("JTMD.REIT.PURCH.BROKER.M", ⟨17, 4⟩),
   ("JTMD.REIT.PURCH.TOT.M", ⟨20, 4⟩),
   ("JTMD.REIT.PURCH.INST.M", ⟨25, 4⟩),
   ("JTMD.REIT.PURCH.INDIV.M", ⟨28, 4⟩),
   ("JTMD.REIT.PURCH.FOR.M", ⟨31, 4⟩),
   ("JTMD.REIT.PURCH.SECCOS.M", ⟨34, 4⟩),
   ("JTMD.REIT.PURCH.INVTRUST.M", ⟨39, 4⟩),
   ("JTMD.REIT.PURCH.BUSCORP.M", ⟨42, 4⟩),
   ("JTMD.REIT.PURCH.OTHINST.M", ⟨45, 4⟩),
   ("JTMD.REIT.PURCH.INSTFIN.M", ⟨48, 4⟩),
   ("JTMD.REIT.PURCH.INS.M", ⟨53, 4⟩),
   ("JTMD.REIT.PURCH.BK.M", ⟨56, 4⟩),
   ("JTMD.REIT.PURCH.OTHERFIN.M", ⟨59, 4⟩)]

/-- `extract_fixed_coordinates` from `jtmd_scraper5.py`: filter the fixed
mappings down to the sheet type's sales/purchases codes and read each literal
coordinate, keeping non-empty formatted values. -/
def extract_fixed_coordinates (g : Grid) (sheet_type : String) :
    List (String × String) :=
  let pfx := "JTMD." ++ pyUpper sheet_type
  let relevant_mappings := fixed_mappings.filter
    (fun kv => pyStartsWith kv.1 pfx &&
      (containsSubstr kv.1 ".SAL." || containsSubstr kv.1 ".PURCH."))
  relevant_mappings.foldl
    (fun extracted_data kv =>
      match cellAt g kv.2.row kv.2.col with
      | some raw_value =>
        let formatted_value := preserve_number_formatting raw_value
        if formatted_value ≠ "" then dictInsert extracted_data kv.1 formatted_value
        else extracted_data
      | none => extracted_data)
    []

/-- Does the pattern `m\d\d\d\d` of `extract_period_from_filename` match at
the head of this character list? -/
def matchM4 : List Char → Option (Char × Char × Char × Char)
  | 'm' :: y1 :: y2 :: m1 :: m2 :: _ =>
    if y1.isDigit && y2.isDigit && m1.isDigit && m2.isDigit then some (y1, y2, m1, m2)
    else none
  | _ => none

/-- Model of `re.search(r'm(\d\x7b2\x7d)(\d\x7b2\x7d)', s)`: scan positions left to
right and return the first match. -/
def searchM4 : List Char → Option (Char × Char × Char × Char)
  | [] => none
  | c :: rest =>
    match matchM4 (c :: rest) with
    | some r => some r
    | none => searchM4 rest

/-- Model of Python `f"\x7bmonth:02d\x7d"` on a natural number. -/
def pad2 (n : Nat) : String :=
  if n < 10 then "0" ++ toString n else toString n

/-- `extract_period_from_filename` from `jtmd_scraper5.py`.  `now` stands for
`datetime.now()` as a `(year, month)` pair: when the lowercased filename has
no `m<YY><MM>` match the function falls back to the current date. -/
def extract_period_from_filename (now : Nat × Nat) (filename : String) : String :=
  match searchM4 (filename.data.map Char.toLower) with
  | some (y1, y2, m1, m2) => ⟨['2', '0', y1, y2, '-', m1, m2]⟩
  | none => toString now.1 ++ "-" ++ pad2 now.2

/-- The loop state of `process_all_files`: the accumulated per-period dict,
the period currently being accumulated, and its partial data. -/
structure MergeState where
  all_data : List (String × List (String × String))
  current_period : Option String
  current_period_data : List (String × String)
  deriving DecidableEq, Repr

/-- One iteration of the file loop in `process_all_files`: files with no data
are skipped; a file with the current period merges into the running record;
a file with a new period flushes the running record into `all_data` (dict
assignment, overwriting any record already stored under that period). -/
def merge_step (st : MergeState) (entry : String × List (String × String)) :
    MergeState :=
  if entry.2 = [] then st
  else
    match st.current_period with
    | none => ⟨st.all_data, some entry.1, entry.2⟩
    | some cp =>
      if cp = entry.1 then
        ⟨st.all_data, some cp, dictUpdate st.current_period_data entry.2⟩
      else
        ⟨dictInsert st.all_data cp st.current_period_data, some entry.1, entry.2⟩

/-- The post-loop flush of `process_all_files`
(`if current_period and current_period_data`), with Python truthiness of the
period string made explicit. -/
def merge_finalize (st : MergeState) : List (String × List (String × String)) :=
  match st.current_period with
  | some cp =>
    if cp ≠ "" ∧ st.current_period_data ≠ [] then
      dictInsert st.all_data cp st.current_period_data
    else st.all_data
  | none => st.all_data

/-- `process_all_files` from `jtmd_scraper5.py`, abstracted over the
already-extracted `(period, data)` pair of each successfully processed file,
in processing order.  (The trailing `if not all_data: return ` check in the
source returns an empty dict when `all_data` is empty, which is the same
value, so it is omitted.) -/
def process_all_files (files : List (String × List (String × String))) :
    List (String × List (String × String)) :=
  merge_finalize (files.foldl merge_step ⟨[], none, []⟩)

/-- A CSV as `pd.read_csv(..., header=None)` presents it to `validate_output`:
a list of rows of cell strings (each cell already in its Python `str()` form;
pandas pads short rows with `NaN`, whose `str()` form is `"nan"`). -/
abbrev Csv := List (List String)

/-- `df.shape[1]`: pandas pads every row to the widest one. -/
def csv_ncols (df : Csv) : Nat :=
  (df.map List.length).foldr Nat.max 0

/-- `str(df.iloc[i, j])`: a cell missing from a short row is a padded `NaN`,
stringified to `"nan"`. -/
def csv_cell (df : Csv) (i j : Nat) : String :=
  match (df.get? i).bind (fun row => row.get? j) with
  | some s => s
  | none => "nan"

/-- Model of `re.match(r'\d\x7b4\x7d-\d\x7b2\x7d', s)`: does `s` start with four
digits, a dash and two digits? -/
def periodFormatOK (s : String) : Bool :=
  match s.data with
  | a :: b :: c :: d :: e :: f :: g :: _ =>
    a.isDigit && b.isDigit && c.isDigit && d.isDigit && (e == '-') && f.isDigit && g.isDigit
  | _ => false

/-- The period-format loop of `validate_output`: count the data rows
(index 2 onward) whose first cell fails the period regex. -/
def period_errors (df : Csv) : Nat :=
  ((List.range df.length).drop 2).countP (fun i => !periodFormatOK (csv_cell df i 0))

/-- The completeness loop of `validate_output`: count non-empty, non-`nan`
cells over the data rows, excluding the period column. -/
def non_empty_values (df : Csv) : Nat :=
  ((List.range df.length).drop 2).foldl
    (fun acc i =>
      acc + ((List.range (csv_ncols df)).drop 1).countP
        (fun j =>
          let cell_value := pyStrip (csv_cell df i j)
          cell_value != "" && cell_value != "nan"))
    0

/-- `total_possible` in `validate_output`: data rows times data columns. -/
def total_possible (df : Csv) : Nat :=
  (df.length - 2) * (csv_ncols df - 1)

/-- `validate_output` from `jtmd_scraper5.py`, as the Boolean
`validation_passed` it returns: the column count must be exactly 85, there
must be at least 3 rows, every data row's period must match the format, and
data completeness must reach the 60 percent acceptance floor
(`non_empty/total*100 >= 60`, rendered exactly as `100*ne >= 60*total`; a
zero `total_possible` yields completeness 0 and fails).  The comma-formatting
statistics in the source are logged only and do not affect the verdict. -/
def validate_output (df : Csv) : Bool :=
  let cols_ok := csv_ncols df == 85
  let rows_ok := decide (3 ≤ df.length)
  let periods_ok := period_errors df == 0
  let completeness_ok :=
    decide (0 < total_possible df) &&
    decide (60 * total_possible df ≤ 100 * non_empty_values df)
  cols_ok && rows_ok && periods_ok && completeness_ok

/-- The orchestrator configuration slice the claims need
(`ProcessingConfig.target_months` in `jpx_master_processor.py`). -/
structure OrchestratorConfig where
  target_months : List String
  deriving DecidableEq, Repr

/-- `process_all_months` from `jpx_master_processor.py`, abstracted over
whether the two scripts exist and over the per-month pipeline outcome
`month_result` (the value of `process_single_month`).  An empty target-month
list, or missing scripts, returns the empty results dict before any month is
processed; otherwise every configured month is processed in order and its
success recorded. -/
def process_all_months (cfg : OrchestratorConfig) (scripts_exist : Bool)
    (month_result : String → Bool) : List (String × Bool) :=
  if cfg.target_months = [] then []
  else if !scripts_exist then []
  else cfg.target_months.foldl
    (fun results month => dictInsert results month (month_result month)) []

/-- The exit-code computation at the end of `main` in
`jpx_master_processor.py` (the `--month`-less branch): count successes, then
exit 0 when every result succeeded, 2 on partial success, 1 otherwise. -/
def main_exit_code (results : List (String × Bool)) : Nat :=
  let success_count := (results.filter (fun r => r.2)).length
  if success_count = results.length then 0
  else if 0 < success_count then 2
  else 1

/-- Fetcher state threaded through the month-cell loop of `process_category`
in `final.py`: the download log (a set of filenames) plus the files
successfully downloaded during the current run. -/
structure FetchState where
  log : List String
  downloaded : List String
  deriving DecidableEq, Repr

/-- `urljoin(...).split('/')[-1]`: the final path component of a link. -/
def file_name_of (href : String) : String :=
  ⟨(href.data.reverse.takeWhile (fun c => !(c == '/'))).reverse⟩

/-- One month cell of the download loop in `process_category`: a cell with no
Excel link, or a link not matching the category's filename filter, is
skipped; a filename already in the log is skipped with no download and no log
change; otherwise the file is downloaded (outcome given by the deterministic
network oracle `ok`) and recorded in the log only on success. -/
def process_month_cell (file_filter : String) (ok : String → Bool)
    (st : FetchState) (cell : Option String) : FetchState :=
  match cell with
  | none => st
  | some href =>
    if containsSubstr href file_filter then
      let file_name := file_name_of href
      if st.log.contains file_name then st
      else if ok href then ⟨st.log ++ [file_name], st.downloaded ++ [file_name]⟩
      else st
    else st

/-- The download loop of `process_category` over one remote listing (each
entry the Excel link of one month cell, if any), from a given download log. -/
def process_category_files (file_filter : String) (ok : String → Bool)
    (log : List String) (listing : List (Option String)) : FetchState :=
  listing.foldl (process_month_cell file_filter ok) ⟨log, []⟩

/-! Concrete inputs used by witnesses and counterexamples. -/

/-- A synthetic grid whose only non-empty balance cell sits at offset `+1`
from the `PROP` base row (row 14, column 6). -/
def grid_plus1 : Grid :=
  (List.replicate 14 ([] : List Cell)) ++ [(List.replicate 6 Cell.na) ++ [Cell.val "1,234"]]

/-- A produced-shape CSV: 85 columns, two header rows, one data row whose
data cells are all empty (`nan`). -/
def df_sparse85 : Csv :=
  [List.replicate 85 "h", List.replicate 85 "h", "2025-06" :: List.replicate 84 "nan"]

/-- A produced-shape CSV: 85 columns, two header rows, one fully populated
data row. -/
def df_good85 : Csv :=
  [List.replicate 85 "h", List.replicate 85 "h", "2025-06" :: List.replicate 84 "1,234"]

/-- A file sequence in which the ETF and REIT files for 2025-06 are separated
by a 2025-05 file. -/
def files_split_period : List (String × List (String × String)) :=
  [("2025-06", [("JTMD.ETF.SAL.PROP.M", "100")]),
   ("2025-05", [("JTMD.ETF.SAL.PROP.M", "50")]),
   ("2025-06", [("JTMD.REIT.SAL.PROP.M", "300")])]

/-! Helper lemmas. -/

lemma dictInsert_lookup_self {β : Type} (d : List (String × β)) (k : String) (v : β) :
    (dictInsert d k v).lookup k = some v := by
  induction d with
  | nil => simp [dictInsert, List.lookup]
  | cons kv rest ih =>
    obtain ⟨k', v'⟩ := kv
    by_cases h : k' = k
    · subst h
      simp [dictInsert, List.lookup]
    · have hkk : (k == k') = false := beq_eq_false_iff_ne.mpr (Ne.symm h)
      simp [dictInsert, h, List.lookup, hkk, ih]

lemma dictInsert_lookup_ne {β : Type} (d : List (String × β)) (k K : String) (v : β)
    (hne : K ≠ k) : (dictInsert d k v).lookup K = d.lookup K := by
  have hKk : (K == k) = false := beq_eq_false_iff_ne.mpr hne
  induction d with
  | nil => simp [dictInsert, List.lookup, hKk]
  | cons kv rest ih =>
    obtain ⟨k', v'⟩ := kv
    by_cases h : k' = k
    · subst h
      simp [dictInsert, List.lookup, hKk]
    · simp only [dictInsert, h, if_false, List.lookup]
      by_cases h2 : K = k'
      · simp [h2]
      · have hKk2 : (K == k') = false := beq_eq_false_iff_ne.mpr h2
        simp [hKk2, ih]

lemma lookup_mem_values {α β : Type} [BEq α] (l : List (α × β)) (a : α) (b : β)
    (h : l.lookup a = some b) : b ∈ l.map Prod.snd := by
  induction l with
  | nil => simp [List.lookup] at h
  | cons kv rest ih =>
    obtain ⟨k, v⟩ := kv
    rw [List.lookup] at h
    cases hak : a == k with
    | true =>
      rw [hak] at h
      simp only [Option.some.injEq] at h
      subst h
      simp
    | false =>
      rw [hak] at h
      simpa using Or.inr (ih h)

lemma probe_eq_find (g : Grid) (base : Nat) (offs : List Nat) :
    probe_offsets g base offs =
      (offs.map (fun o => formatted_cell g (base + o) 6)).find? (fun v => v != "") := by
  induction offs with
  | nil => rfl
  | cons o rest ih =>
    simp only [probe_offsets]
    rw [List.map_cons]
    cases h : cellAt g (base + o) 6 with
    | none =>
      rw [List.find?_cons_of_neg _ (by simp [formatted_cell, h])]
      exact ih
    | some raw =>
      by_cases hv : preserve_number_formatting raw = ""
      · rw [List.find?_cons_of_neg _ (by simp [formatted_cell, h, hv])]
        simpa [hv] using ih
      · rw [List.find?_cons_of_pos _ (by simp [formatted_cell, h, hv])]
        simp [formatted_cell, h, hv]

lemma find_balance_code (g : Grid) (category_key sheet_type : String)
    (p : String × String) (h : find_balance_in_category g category_key sheet_type = some p) :
    p.1 = balance_code sheet_type category_key := by
  cases hl : category_structure.lookup category_key with
  | none =>
    simp only [find_balance_in_category, hl] at h
    exact absurd h (by simp)
  | some info =>
    simp only [find_balance_in_category, hl] at h
    cases hp : probe_offsets g info.base_row info.search_offsets with
    | none => rw [hp] at h; simp at h
    | some fv =>
      rw [hp] at h
      simp only [Option.some.injEq] at h
      rw [← h]

lemma balance_code_inj (sheet_type k1 k2 : String)
    (h : balance_code sheet_type k1 = balance_code sheet_type k2) : k1 = k2 := by
  have hd := congrArg String.data h
  simp only [balance_code, String.data_append] at hd
  apply String.ext
  exact List.append_cancel_left (List.append_cancel_right hd)

lemma dyn_fold_lookup_none (g : Grid) (sheet_type K : String) (ks : List String)
    (acc : List (String × String)) (hacc : acc.lookup K = none)
    (hks : ∀ k ∈ ks, ∀ p, find_balance_in_category g k sheet_type = some p → p.1 ≠ K) :
    (ks.foldl
      (fun extracted_data category_key =>
        match find_balance_in_category g category_key sheet_type with
        | some result => dictInsert extracted_data result.1 result.2
        | none => extracted_data)
      acc).lookup K = none := by
  induction ks generalizing acc with
  | nil => simpa using hacc
  | cons k rest ih =>
    rw [List.foldl_cons]
    cases hf : find_balance_in_category g k sheet_type with
    | none =>
      exact ih acc hacc (fun k' hk' => hks k' (List.mem_cons_of_mem _ hk'))
    | some r =>
      refine ih _ ?_ (fun k' hk' => hks k' (List.mem_cons_of_mem _ hk'))
      rw [dictInsert_lookup_ne _ _ _ _ (Ne.symm (hks k (List.mem_cons_self _ _) r hf))]
      exact hacc

/-- Claim C1: for every grid and every balance category, dynamic balance
extraction probes the category's candidate rows (base row plus offsets
0, 1, 2, in that order) at column index 6 and returns, with the category's
balance column code, the formatted value of the first candidate whose
formatted value is non-empty; later candidates never contribute once an
earlier one is non-empty. -/
theorem C1_dynamic_balance_first_match (g : Grid) (sheet_type category_key : String)
    (info : CategoryInfo) (h : category_structure.lookup category_key = some info) :
    info.search_offsets = [0, 1, 2] ∧
    find_balance_in_category g category_key sheet_type =
      ((info.search_offsets.map (fun o => formatted_cell g (info.base_row + o) 6)).find?
        (fun v => v != "")).map
        (fun v => (balance_code sheet_type category_key, v)) := by
  constructor
  · have hmem := lookup_mem_values _ _ _ h
    have hall : ∀ i ∈ category_structure.map Prod.snd, i.search_offsets = [0, 1, 2] := by
      decide
    exact hall _ hmem
  · simp only [find_balance_in_category, h, ← probe_eq_find]
    cases probe_offsets g info.base_row info.search_offsets <;> rfl

/-- Witness for C1 at the `PROP` category of a grid whose only non-empty
candidate sits at offset `+1`: the hypothesis holds and the extraction
returns that candidate's value. -/
theorem C1_dynamic_balance_first_match_witness :
    category_structure.lookup "PROP" = some ⟨13, [0, 1, 2]⟩ ∧
    (CategoryInfo.mk 13 [0, 1, 2]).search_offsets = [0, 1, 2] ∧
    find_balance_in_category grid_plus1 "PROP" "ETF" =
      (((CategoryInfo.mk 13 [0, 1, 2]).search_offsets.map
        (fun o => formatted_cell grid_plus1 ((CategoryInfo.mk 13 [0, 1, 2]).base_row + o) 6)).find?
        (fun v => v != "")).map (fun v => (balance_code "ETF" "PROP", v)) ∧
    find_balance_in_category grid_plus1 "PROP" "ETF" =
      some ("JTMD.ETF.BAL.PROP.M", "1,234") := by
  refine ⟨by decide, ?_, ?_, by decide⟩
  · exact (C1_dynamic_balance_first_match grid_plus1 "ETF" "PROP" ⟨13, [0, 1, 2]⟩ (by decide)).1
  · exact (C1_dynamic_balance_first_match grid_plus1 "ETF" "PROP" ⟨13, [0, 1, 2]⟩ (by decide)).2

lemma dyn_all_empty_code_absent (g : Grid) (sheet_type category_key : String)
    (info : CategoryInfo) (h : category_structure.lookup category_key = some info)
    (hempty : ∀ o ∈ info.search_offsets, formatted_cell g (info.base_row + o) 6 = "") :
    (extract_dynamic_balance_coordinates g sheet_type).lookup
      (balance_code sheet_type category_key) = none := by
  have hnone : find_balance_in_category g category_key sheet_type = none := by
    simp only [find_balance_in_category, h, probe_eq_find]
    have hfind : (info.search_offsets.map
        (fun o => formatted_cell g (info.base_row + o) 6)).find? (fun v => v != "") = none := by
      rw [List.find?_eq_none]
      intro x hx
      obtain ⟨o, ho, rfl⟩ := List.mem_map.mp hx
      simp [hempty o ho]
    rw [hfind]
  apply dyn_fold_lookup_none
  · simp [List.lookup]
  · intro k' hk' p hp
    by_cases hkk : k' = category_key
    · subst hkk
      rw [hnone] at hp
      exact absurd hp (by simp)
    · intro hcode
      exact hkk (balance_code_inj sheet_type k' category_key
        ((find_balance_code g k' sheet_type p hp) ▸ hcode))

/-- Claim C2: if every candidate cell in a category's probe window has an
empty formatted value, then the category's balance column code is absent
from the dynamic-extraction result (the lookup finds no binding at all), and
the extraction still runs to completion. -/
theorem C2_all_candidates_empty_code_absent (g : Grid) (sheet_type category_key : String)
    (info : CategoryInfo) (h : category_structure.lookup category_key = some info)
    (hempty : ∀ o ∈ info.search_offsets, formatted_cell g (info.base_row + o) 6 = "") :
    (extract_dynamic_balance_coordinates g sheet_type).lookup
      (balance_code sheet_type category_key) = none :=
  dyn_all_empty_code_absent g sheet_type category_key info h hempty

/-- Witness for C2: on the empty grid every `PROP` candidate is empty, so
the `PROP` balance code is absent from the ETF dynamic extraction. -/
theorem C2_all_candidates_empty_code_absent_witness :
    category_structure.lookup "PROP" = some ⟨13, [0, 1, 2]⟩ ∧
    (∀ o ∈ (CategoryInfo.mk 13 [0, 1, 2]).search_offsets,
      formatted_cell ([] : Grid) ((CategoryInfo.mk 13 [0, 1, 2]).base_row + o) 6 = "") ∧
    (extract_dynamic_balance_coordinates ([] : Grid) "ETF").lookup
      (balance_code "ETF" "PROP") = none := by
  refine ⟨by decide, by decide, ?_⟩
  exact C2_all_candidates_empty_code_absent ([] : Grid) "ETF" "PROP" ⟨13, [0, 1, 2]⟩
    (by decide) (by decide)

/-- Claim C4 counterexample: the cell value whose string form is
`" 1,234 "` is non-empty, yet formatting returns the stripped string
`"1,234"`, not the stringified value itself — the claimed character-for-
character pass-through fails on values with surrounding whitespace. -/
theorem C4_passthrough_counterexample :
    (" 1,234 " : String) ≠ "" ∧
    preserve_number_formatting (Cell.val " 1,234 ") = "1,234" ∧
    preserve_number_formatting (Cell.val " 1,234 ") ≠ " 1,234 " := by
  refine ⟨by decide, by decide, by decide⟩

lemma preserve_val_strip (s : String) :
    preserve_number_formatting (Cell.val s) = pyStrip s := by
  by_cases h : s = ""
  · subst h
    rfl
  · simp only [preserve_number_formatting, h, if_false]
    by_cases h2 : pyStrip s = ""
    · simp [h2]
    · simp [h2]

lemma dropWhile_eq_self_of_head (p : Char → Bool) :
    ∀ l : List Char, (l.head?.all fun c => !p c) = true → l.dropWhile p = l
  | [], _ => rfl
  | a :: l, h => by
    have ha : p a = false := by simpa using h
    simp [List.dropWhile_cons, ha]

lemma pyStrip_eq_self (s : String)
    (hhead : (s.data.head?.all fun c => !c.isWhitespace) = true)
    (hlast : (s.data.getLast?.all fun c => !c.isWhitespace) = true) :
    pyStrip s = s := by
  apply String.ext
  show ((s.data.dropWhile Char.isWhitespace).reverse.dropWhile Char.isWhitespace).reverse
    = s.data
  rw [dropWhile_eq_self_of_head _ _ hhead]
  rw [dropWhile_eq_self_of_head _ s.data.reverse (by rwa [List.head?_reverse])]
  exact List.reverse_reverse _

/-- Claim C4, amended: value formatting stringifies and strips surrounding
whitespace (`str(value).strip()`) and otherwise passes the value through
unchanged, commas included; on a value whose string form has no leading or
trailing whitespace — in particular an already-formatted string such as
`"1,234"` — formatting is the identity. -/
theorem C4_passthrough_amended :
    (∀ s : String, preserve_number_formatting (Cell.val s) = pyStrip s) ∧
    (∀ s : String,
      (s.data.head?.all fun c => !c.isWhitespace) = true →
      (s.data.getLast?.all fun c => !c.isWhitespace) = true →
      preserve_number_formatting (Cell.val s) = s) := by
  refine ⟨preserve_val_strip, fun s hhead hlast => ?_⟩
  rw [preserve_val_strip]
  exact pyStrip_eq_self s hhead hlast

/-- Witness for C4 amended at the comma-formatted string `"1,234"`. -/
theorem C4_passthrough_amended_witness :
    (("1,234" : String).data.head?.all fun c => !c.isWhitespace) = true ∧
    (("1,234" : String).data.getLast?.all fun c => !c.isWhitespace) = true ∧
    preserve_number_formatting (Cell.val "1,234") = "1,234" := by
  refine ⟨by decide, by decide, ?_⟩
  exact C4_passthrough_amended.2 "1,234" (by decide) (by decide)

lemma dictInsert_ne_nil {β : Type} (d : List (String × β)) (k : String) (v : β) :
    dictInsert d k v ≠ [] := by
  cases d with
  | nil => simp [dictInsert]
  | cons kv rest =>
    obtain ⟨k', v'⟩ := kv
    by_cases h : k' = k <;> simp [dictInsert, h]

lemma dictUpdate_ne_nil (d e : List (String × String)) (hd : d ≠ []) :
    dictUpdate d e ≠ [] := by
  induction e generalizing d with
  | nil => simpa [dictUpdate] using hd
  | cons kv rest ih =>
    show dictUpdate (dictInsert d kv.1 kv.2) rest ≠ []
    exact ih _ (dictInsert_ne_nil d kv.1 kv.2)

lemma merge_step_preserve (st : MergeState) (q : String) (d : List (String × String))
    (p : String) (V : Option (List (String × String))) (hq : q ≠ p)
    (hcur : st.current_period ≠ some p) (hall : st.all_data.lookup p = V) :
    (merge_step st (q, d)).current_period ≠ some p ∧
    (merge_step st (q, d)).all_data.lookup p = V := by
  by_cases hd : d = []
  · have hres : merge_step st (q, d) = st := by simp [merge_step, hd]
    rw [hres]
    exact ⟨hcur, hall⟩
  · cases hc : st.current_period with
    | none =>
      have hres : merge_step st (q, d) = ⟨st.all_data, some q, d⟩ := by
        simp [merge_step, hd, hc]
      rw [hres]
      exact ⟨by simpa using hq, hall⟩
    | some cp =>
      have hcp : cp ≠ p := fun e => hcur (by rw [hc, e])
      by_cases hce : cp = q
      · have hres : merge_step st (q, d) =
            ⟨st.all_data, some cp, dictUpdate st.current_period_data d⟩ := by
          simp [merge_step, hd, hc, hce]
        rw [hres]
        exact ⟨by simpa using hcp, hall⟩
      · have hres : merge_step st (q, d) =
            ⟨dictInsert st.all_data cp st.current_period_data, some q, d⟩ := by
          simp [merge_step, hd, hc, hce]
        rw [hres]
        exact ⟨by simpa using hq,
          (dictInsert_lookup_ne st.all_data cp p _ (Ne.symm hcp)).trans hall⟩

lemma merge_pre (p : String) :
    ∀ (pre : List (String × List (String × String))) (st : MergeState),
      p ∉ pre.map Prod.fst →
      st.current_period ≠ some p →
      st.all_data.lookup p = none →
      (pre.foldl merge_step st).current_period ≠ some p ∧
      (pre.foldl merge_step st).all_data.lookup p = none := by
  intro pre
  induction pre with
  | nil =>
    intro st _ hcur hall
    exact ⟨hcur, hall⟩
  | cons entry rest ih =>
    intro st hpre hcur hall
    obtain ⟨q, d⟩ := entry
    simp only [List.map_cons, List.mem_cons, not_or] at hpre
    obtain ⟨hstep1, hstep2⟩ :=
      merge_step_preserve st q d p none (fun e => hpre.1 e.symm) hcur hall
    exact ih _ hpre.2 hstep1 hstep2

lemma merge_post_keep (p : String) (D : List (String × String)) :
    ∀ (post : List (String × List (String × String))) (st : MergeState),
      p ∉ post.map Prod.fst →
      st.current_period ≠ some p →
      st.all_data.lookup p = some D →
      (merge_finalize (post.foldl merge_step st)).lookup p = some D := by
  intro post
  induction post with
  | nil =>
    intro st _ hcur hall
    rw [List.foldl_nil]
    unfold merge_finalize
    cases hc : st.current_period with
    | none => exact hall
    | some cp =>
      have hcp : cp ≠ p := fun e => hcur (by rw [hc, e])
      show (if cp ≠ "" ∧ st.current_period_data ≠ [] then
          dictInsert st.all_data cp st.current_period_data else st.all_data).lookup p = some D
      by_cases hflush : cp ≠ "" ∧ st.current_period_data ≠ []
      · rw [if_pos hflush, dictInsert_lookup_ne st.all_data cp p _ (Ne.symm hcp)]
        exact hall
      · rw [if_neg hflush]
        exact hall
  | cons entry rest ih =>
    intro st hpost hcur hall
    obtain ⟨q, d⟩ := entry
    simp only [List.map_cons, List.mem_cons, not_or] at hpost
    obtain ⟨hstep1, hstep2⟩ :=
      merge_step_preserve st q d p (some D) (fun e => hpost.1 e.symm) hcur hall
    exact ih _ hpost.2 hstep1 hstep2

lemma merge_post_flush (p : String) :
    ∀ (post : List (String × List (String × String))) (st : MergeState),
      p ∉ post.map Prod.fst →
      st.current_period = some p →
      st.current_period_data ≠ [] →
      p ≠ "" →
      st.all_data.lookup p = none →
      (merge_finalize (post.foldl merge_step st)).lookup p = some st.current_period_data := by
  intro post
  induction post with
  | nil =>
    intro st _ hcur hdata hp hall
    rw [List.foldl_nil]
    unfold merge_finalize
    rw [hcur]
    show (if p ≠ "" ∧ st.current_period_data ≠ [] then
        dictInsert st.all_data p st.current_period_data
      else st.all_data).lookup p = some st.current_period_data
    rw [if_pos ⟨hp, hdata⟩]
    exact dictInsert_lookup_self st.all_data p st.current_period_data
  | cons entry rest ih =>
    intro st hpost hcur hdata hp hall
    obtain ⟨q, d⟩ := entry
    simp only [List.map_cons, List.mem_cons, not_or] at hpost
    have hq : q ≠ p := fun e => hpost.1 e.symm
    rw [List.foldl_cons]
    by_cases hd : d = []
    · have hst : merge_step st (q, d) = st := by simp [merge_step, hd]
      rw [hst]
      exact ih st hpost.2 hcur hdata hp hall
    · have hst : merge_step st (q, d) =
          ⟨dictInsert st.all_data p st.current_period_data, some q, d⟩ := by
        simp [merge_step, hd, hcur, Ne.symm hq]
      rw [hst]
      exact merge_post_keep p st.current_period_data rest _ hpost.2
        (by simpa using hq) (dictInsert_lookup_self st.all_data p st.current_period_data)

/-- Claim C3 counterexample: processing an ETF file for 2025-06, then a file
for 2025-05, then a REIT file for 2025-06, the final record for 2025-06
contains only the REIT field — the ETF file's mapping for the same period is
lost, so same-period files are not merged regardless of processing order. -/
theorem C3_order_counterexample :
    (process_all_files files_split_period).lookup "2025-06" =
      some [("JTMD.REIT.SAL.PROP.M", "300")] ∧
    Option.map (fun d => d.lookup "JTMD.ETF.SAL.PROP.M")
      ((process_all_files files_split_period).lookup "2025-06") = some none := by
  exact ⟨by decide, by decide⟩

/-- Claim C3, amended: ETF and REIT field mappings for the same period are
merged into a single record for that period provided the two files are
processed consecutively and no other file in the sequence bears that period;
a later non-adjacent file with the same period instead replaces the record
saved earlier. -/
theorem C3_same_period_adjacent_merge (pre post : List (String × List (String × String)))
    (p : String) (d1 d2 : List (String × String))
    (hp : p ≠ "") (h1 : d1 ≠ []) (h2 : d2 ≠ [])
    (hpre : p ∉ pre.map Prod.fst) (hpost : p ∉ post.map Prod.fst) :
    (process_all_files (pre ++ (p, d1) :: (p, d2) :: post)).lookup p =
      some (dictUpdate d1 d2) := by
  unfold process_all_files
  rw [List.foldl_append, List.foldl_cons, List.foldl_cons]
  obtain ⟨hc1, ha1⟩ := merge_pre p pre ⟨[], none, []⟩ hpre (by simp) (by simp [List.lookup])
  cases hc : (pre.foldl merge_step ⟨[], none, []⟩).current_period with
  | none =>
    have hst2 : merge_step (pre.foldl merge_step ⟨[], none, []⟩) (p, d1) =
        ⟨(pre.foldl merge_step ⟨[], none, []⟩).all_data, some p, d1⟩ := by
      simp [merge_step, h1, hc]
    rw [hst2]
    have hst3 : merge_step
        (⟨(pre.foldl merge_step ⟨[], none, []⟩).all_data, some p, d1⟩ : MergeState) (p, d2) =
        ⟨(pre.foldl merge_step ⟨[], none, []⟩).all_data, some p, dictUpdate d1 d2⟩ := by
      simp [merge_step, h2]
    rw [hst3]
    exact merge_post_flush p post _ hpost rfl (dictUpdate_ne_nil d1 d2 h1) hp ha1
  | some cp =>
    have hcp : cp ≠ p := fun e => hc1 (by rw [hc, e])
    have hst2 : merge_step (pre.foldl merge_step ⟨[], none, []⟩) (p, d1) =
        ⟨dictInsert (pre.foldl merge_step ⟨[], none, []⟩).all_data cp
          (pre.foldl merge_step ⟨[], none, []⟩).current_period_data, some p, d1⟩ := by
      simp [merge_step, h1, hc, hcp]
    rw [hst2]
    have hst3 : merge_step
        (⟨dictInsert (pre.foldl merge_step ⟨[], none, []⟩).all_data cp
          (pre.foldl merge_step ⟨[], none, []⟩).current_period_data,
          some p, d1⟩ : MergeState) (p, d2) =
        ⟨dictInsert (pre.foldl merge_step ⟨[], none, []⟩).all_data cp
          (pre.foldl merge_step ⟨[], none, []⟩).current_period_data,
          some p, dictUpdate d1 d2⟩ := by
      simp [merge_step, h2]
    rw [hst3]
    refine merge_post_flush p post _ hpost rfl (dictUpdate_ne_nil d1 d2 h1) hp ?_
    simpa using (dictInsert_lookup_ne _ cp p _ (Ne.symm hcp)).trans ha1

/-- Witness for C3 amended: an ETF and a REIT file for 2025-06 processed
consecutively after a 2025-05 file yield one merged record for 2025-06. -/
theorem C3_same_period_adjacent_merge_witness :
    ("2025-06" : String) ≠ "" ∧
    ([("JTMD.ETF.SAL.PROP.M", "100")] : List (String × String)) ≠ [] ∧
    ([("JTMD.REIT.SAL.PROP.M", "300")] : List (String × String)) ≠ [] ∧
    "2025-06" ∉ [("2025-05", [("JTMD.ETF.SAL.PROP.M", "50")])].map
      (Prod.fst (α := String) (β := List (String × String))) ∧
    "2025-06" ∉ ([] : List (String × List (String × String))).map Prod.fst ∧
    (process_all_files ([("2025-05", [("JTMD.ETF.SAL.PROP.M", "50")])] ++
      ("2025-06", [("JTMD.ETF.SAL.PROP.M", "100")]) ::
      ("2025-06", [("JTMD.REIT.SAL.PROP.M", "300")]) :: [])).lookup "2025-06" =
      some (dictUpdate [("JTMD.ETF.SAL.PROP.M", "100")] [("JTMD.REIT.SAL.PROP.M", "300")]) := by
  refine ⟨by decide, by decide, by decide, by decide, by decide, ?_⟩
  exact C3_same_period_adjacent_merge [("2025-05", [("JTMD.ETF.SAL.PROP.M", "50")])] []
    "2025-06" [("JTMD.ETF.SAL.PROP.M", "100")] [("JTMD.REIT.SAL.PROP.M", "300")]
    (by decide) (by decide) (by decide) (by decide) (by decide)

/-- Claim C5 counterexample: a CSV with exactly 85 columns and three rows
(two headers plus one data row) whose data cells are all empty is reported
FAILED by the validator — its data completeness is below the 60 percent
floor — so 85 columns plus a data row do not suffice for PASSED. -/
theorem C5_validator_counterexample :
    csv_ncols df_sparse85 = 85 ∧ df_sparse85.length = 3 ∧
    validate_output df_sparse85 = false := by
  exact ⟨by decide, by decide, by decide⟩

/-- Claim C5, amended: any CSV whose column count differs from 85 reports
FAILED; a CSV reports PASSED when it has exactly 85 columns, at least 3
rows, a valid `YYYY-MM` period prefix in every data row's leading cell, and
data completeness of at least 60 percent over the data cells. -/
theorem C5_validator_amended :
    (∀ df : Csv, csv_ncols df ≠ 85 → validate_output df = false) ∧
    (∀ df : Csv, csv_ncols df = 85 → 3 ≤ df.length → period_errors df = 0 →
      0 < total_possible df →
      60 * total_possible df ≤ 100 * non_empty_values df →
      validate_output df = true) := by
  constructor
  · intro df h
    unfold validate_output
    simp [h]
  · intro df h1 h2 h3 h4 h5
    unfold validate_output
    simp [h1, h2, h3, h4, h5]

/-- Witness for C5 amended: a fully populated 85-column CSV with one data
row passes validation. -/
theorem C5_validator_amended_witness :
    csv_ncols df_good85 = 85 ∧ 3 ≤ df_good85.length ∧ period_errors df_good85 = 0 ∧
    0 < total_possible df_good85 ∧
    60 * total_possible df_good85 ≤ 100 * non_empty_values df_good85 ∧
    validate_output df_good85 = true := by
  refine ⟨by decide, by decide, by decide, by decide, by decide, ?_⟩
  exact C5_validator_amended.2 df_good85 (by decide) (by decide) (by decide)
    (by decide) (by decide)

/-- Claim C6, evaluated at the failing input: with an empty target-month
list `process_all_months` returns the empty results dict before any phase
runs, and the exit-code computation of `main` then takes the all-success
branch (zero successes out of zero results), terminating with exit code 0 —
not the total-failure exit code 1 the specification assigns to this fatal
configuration error. -/
theorem C6_empty_target_months_exits_zero (scripts_exist : Bool)
    (month_result : String → Bool) :
    process_all_months ⟨[]⟩ scripts_exist month_result = [] ∧
    main_exit_code (process_all_months ⟨[]⟩ scripts_exist month_result) = 0 := by
  constructor
  · simp [process_all_months]
  · simp [process_all_months, main_exit_code]

lemma fetch_log_mono (ff : String) (ok : String → Bool) (fn : String) :
    ∀ (listing : List (Option String)) (st : FetchState),
      fn ∈ st.log → fn ∈ (listing.foldl (process_month_cell ff ok) st).log := by
  intro listing
  induction listing with
  | nil =>
    intro st h
    exact h
  | cons cell rest ih =>
    intro st h
    rw [List.foldl_cons]
    apply ih
    cases cell with
    | none => exact h
    | some href =>
      by_cases hm : containsSubstr href ff = true
      · by_cases hmem2 : file_name_of href ∈ st.log
        · simpa [process_month_cell, hm, hmem2] using h
        · by_cases hok : ok href = true
          · simp [process_month_cell, hm, hmem2, hok, h]
          · simpa [process_month_cell, hm, hmem2, hok] using h
      · simpa [process_month_cell, hm] using h

lemma fetch_covered (ff : String) (ok : String → Bool) :
    ∀ (listing : List (Option String)) (st : FetchState) (href : String),
      some href ∈ listing → containsSubstr href ff = true → ok href = true →
      file_name_of href ∈ (listing.foldl (process_month_cell ff ok) st).log := by
  intro listing
  induction listing with
  | nil =>
    intro st href h
    simp at h
  | cons cell rest ih =>
    intro st href hmem hm hok
    rw [List.foldl_cons]
    rcases List.mem_cons.mp hmem with hhead | htail
    · cases hhead
      apply fetch_log_mono
      by_cases hmem2 : file_name_of href ∈ st.log
      · simp [process_month_cell, hm, hmem2]
      · simp [process_month_cell, hm, hmem2, hok]
    · exact ih _ href htail hm hok

lemma fetch_run_fixed (ff : String) (ok : String → Bool) (L : List String) :
    ∀ listing : List (Option String),
      (∀ href, some href ∈ listing → containsSubstr href ff = true →
        file_name_of href ∈ L ∨ ok href = false) →
      ∀ D : List String,
        listing.foldl (process_month_cell ff ok) ⟨L, D⟩ = ⟨L, D⟩ := by
  intro listing
  induction listing with
  | nil =>
    intro _ D
    rfl
  | cons cell rest ih =>
    intro hcond D
    rw [List.foldl_cons]
    have hstep : process_month_cell ff ok ⟨L, D⟩ cell = ⟨L, D⟩ := by
      cases cell with
      | none => rfl
      | some href =>
        by_cases hm : containsSubstr href ff = true
        · by_cases hin : file_name_of href ∈ L
          · simp [process_month_cell, hm, hin]
          · have hnok : ok href = false := by
              rcases hcond href (List.mem_cons_self _ _) hm with h | h
              · exact absurd h hin
              · exact h
            simp [process_month_cell, hm, hin, hnok]
        · simp [process_month_cell, hm]
    rw [hstep]
    exact ih (fun href h hm2 => hcond href (List.mem_cons_of_mem _ h) hm2) D

/-- Claim C7: the download step is idempotent with respect to the download
log.  A month cell whose filename is already in the log is skipped outright
(state unchanged: no download, no log change), and a second run of the
download loop against the log produced by a first run, with an identical
listing and the same deterministic network outcomes, performs zero new
downloads and leaves the log exactly as the first run left it. -/
theorem C7_download_idempotent (ff : String) (ok : String → Bool)
    (log : List String) (listing : List (Option String)) :
    (∀ (st : FetchState) (href : String), file_name_of href ∈ st.log →
      process_month_cell ff ok st (some href) = st) ∧
    (process_category_files ff ok
      (process_category_files ff ok log listing).log listing).log =
      (process_category_files ff ok log listing).log ∧
    (process_category_files ff ok
      (process_category_files ff ok log listing).log listing).downloaded = [] := by
  have hskip : ∀ (st : FetchState) (href : String), file_name_of href ∈ st.log →
      process_month_cell ff ok st (some href) = st := by
    intro st href hmem
    by_cases hm : containsSubstr href ff = true
    · simp [process_month_cell, hm, hmem]
    · simp [process_month_cell, hm]
  have hrun2 : process_category_files ff ok
      (process_category_files ff ok log listing).log listing =
      ⟨(process_category_files ff ok log listing).log, []⟩ := by
    unfold process_category_files
    apply fetch_run_fixed
    intro href hmem hm
    cases hok : ok href with
    | true =>
      exact Or.inl (fetch_covered ff ok listing ⟨log, []⟩ href hmem hm hok)
    | false => exact Or.inr rfl
  exact ⟨hskip, by rw [hrun2], by rw [hrun2]⟩

/-- Witness for C7: a cell whose filename is already logged leaves the
fetch state untouched. -/
theorem C7_download_idempotent_witness :
    file_name_of "stat/etf_m2506.xls" ∈ (FetchState.mk ["etf_m2506.xls"] []).log ∧
    process_month_cell "etf_m" (fun _ => true) ⟨["etf_m2506.xls"], []⟩
      (some "stat/etf_m2506.xls") = ⟨["etf_m2506.xls"], []⟩ := by
  refine ⟨by decide, ?_⟩
  exact (C7_download_idempotent "etf_m" (fun _ => true) [] []).1
    ⟨["etf_m2506.xls"], []⟩ "stat/etf_m2506.xls" (by decide)

lemma lookup_unique_value {β : Type} :
    ∀ (l : List (String × β)), (l.map Prod.fst).Nodup →
      ∀ (a : String) (b : β), l.lookup a = some b →
      ∀ kv ∈ l, kv.1 = a → kv.2 = b := by
  intro l
  induction l with
  | nil =>
    intro _ a b _ kv hkv
    simp at hkv
  | cons kv0 rest ih =>
    intro hnodup a b h kv hkv he
    obtain ⟨k0, b0⟩ := kv0
    obtain ⟨hk0, hrest⟩ := List.nodup_cons.mp hnodup
    rw [List.lookup] at h
    cases hak : a == k0 with
    | true =>
      rw [hak] at h
      have hab : a = k0 := by simpa using hak
      simp only [Option.some.injEq] at h
      rcases List.mem_cons.mp hkv with hfst | htail
      · rw [hfst, h]
      · exact absurd (List.mem_map.mpr ⟨kv, htail, by rw [he, hab]⟩) hk0
    | false =>
      rw [hak] at h
      rcases List.mem_cons.mp hkv with hfst | htail
      · have hak0 : a = k0 := by rw [← he, hfst]
        rw [hak0] at hak
        simp at hak
      · exact ih hrest a b h kv htail he

lemma fixed_fold_lookup_none (g : Grid) (K : String) :
    ∀ (l : List (String × Coord)) (acc : List (String × String)),
      acc.lookup K = none →
      (∀ kv ∈ l, kv.1 = K → cellAt g kv.2.row kv.2.col = none) →
      (l.foldl
        (fun extracted_data kv =>
          match cellAt g kv.2.row kv.2.col with
          | some raw_value =>
            let formatted_value := preserve_number_formatting raw_value
            if formatted_value ≠ "" then dictInsert extracted_data kv.1 formatted_value
            else extracted_data
          | none => extracted_data)
        acc).lookup K = none := by
  intro l
  induction l with
  | nil =>
    intro acc hacc _
    simpa using hacc
  | cons kv rest ih =>
    intro acc hacc hl
    rw [List.foldl_cons]
    refine ih _ ?_ (fun kv' h' => hl kv' (List.mem_cons_of_mem _ h'))
    cases hcell : cellAt g kv.2.row kv.2.col with
    | none => simpa [hcell] using hacc
    | some raw =>
      by_cases hv : preserve_number_formatting raw ≠ ""
      · have hne : kv.1 ≠ K := by
          intro e
          rw [hl kv (List.mem_cons_self _ _) e] at hcell
          exact absurd hcell (by simp)
        simp only [hv, if_true, ne_eq, not_false_eq_true]
        rw [dictInsert_lookup_ne _ _ _ _ (Ne.symm hne)]
        exact hacc
      · simpa [hv] using hacc

/-- Claim C8: cell access during fixed and dynamic extraction is total and
treats every out-of-range probe as "not found": on any grid (empty or
ragged included) an out-of-bounds row or column reads `none`; a fixed-
mapping code whose coordinate is out of range contributes no entry to the
fixed extraction; a balance category all of whose candidate probes are out
of range contributes no entry to the dynamic extraction.  Both extractions
are total Lean functions, so no probe can abort a file's extraction. -/
theorem C8_out_of_range_probe_not_found (g : Grid) (sheet_type : String) :
    (∀ r c, cellAt ([] : Grid) r c = none) ∧
    (∀ r c, g.length ≤ r → cellAt g r c = none) ∧
    (∀ r c row, g.get? r = some row → row.length ≤ c → cellAt g r c = none) ∧
    (∀ code coord, fixed_mappings.lookup code = some coord →
      cellAt g coord.row coord.col = none →
      (extract_fixed_coordinates g sheet_type).lookup code = none) ∧
    (∀ category_key info, category_structure.lookup category_key = some info →
      (∀ o ∈ info.search_offsets, cellAt g (info.base_row + o) 6 = none) →
      (extract_dynamic_balance_coordinates g sheet_type).lookup
        (balance_code sheet_type category_key) = none) := by
  refine ⟨fun r c => rfl, ?_, ?_, ?_, ?_⟩
  · intro r c h
    unfold cellAt
    rw [List.get?_eq_none.mpr h]
  · intro r c row hrow hc
    simp only [cellAt, hrow]
    exact List.get?_eq_none.mpr hc
  · intro code coord hcode hcell
    have hnodup : (fixed_mappings.map Prod.fst).Nodup := by decide
    unfold extract_fixed_coordinates
    apply fixed_fold_lookup_none
    · simp [List.lookup]
    · intro kv hkv he
      have hkvfm : kv ∈ fixed_mappings := (List.mem_filter.mp hkv).1
      have := lookup_unique_value fixed_mappings hnodup code coord hcode kv hkvfm he
      rw [this]
      exact hcell
  · intro category_key info h hempty
    refine dyn_all_empty_code_absent g sheet_type category_key info h ?_
    intro o ho
    simp [formatted_cell, hempty o ho]

/-- Witness for C8 on a one-cell grid: the fixed probe at coordinate
`(13, 4)` and the dynamic `PROP` window `(13..15, 6)` are all out of range,
and the corresponding codes are absent from both extraction results. -/
theorem C8_out_of_range_probe_not_found_witness :
    fixed_mappings.lookup "JTMD.ETF.SAL.PROP.M" = some ⟨13, 4⟩ ∧
    cellAt [[Cell.na]] 13 4 = none ∧
    (extract_fixed_coordinates [[Cell.na]] "ETF").lookup "JTMD.ETF.SAL.PROP.M" = none ∧
    category_structure.lookup "PROP" = some ⟨13, [0, 1, 2]⟩ ∧
    (∀ o ∈ (CategoryInfo.mk 13 [0, 1, 2]).search_offsets,
      cellAt [[Cell.na]] ((CategoryInfo.mk 13 [0, 1, 2]).base_row + o) 6 = none) ∧
    (extract_dynamic_balance_coordinates [[Cell.na]] "ETF").lookup
      (balance_code "ETF" "PROP") = none := by
  refine ⟨by decide, by decide, ?_, by decide, by decide, ?_⟩
  · exact (C8_out_of_range_probe_not_found [[Cell.na]] "ETF").2.2.2.1
      "JTMD.ETF.SAL.PROP.M" ⟨13, 4⟩ (by decide) (by decide)
  · exact (C8_out_of_range_probe_not_found [[Cell.na]] "ETF").2.2.2.2
      "PROP" ⟨13, [0, 1, 2]⟩ (by decide) (by decide)

lemma searchM4_append (post : List Char) (y1 y2 m1 m2 : Char)
    (h1 : y1.isDigit = true) (h2 : y2.isDigit = true)
    (h3 : m1.isDigit = true) (h4 : m2.isDigit = true) :
    ∀ pre : List Char,
      (∀ i, i < pre.length →
        matchM4 ((pre ++ 'm' :: y1 :: y2 :: m1 :: m2 :: post).drop i) = none) →
      searchM4 (pre ++ 'm' :: y1 :: y2 :: m1 :: m2 :: post) = some (y1, y2, m1, m2) := by
  intro pre
  induction pre with
  | nil =>
    intro _
    simp [searchM4, matchM4, h1, h2, h3, h4]
  | cons c rest ih =>
    intro hno
    have h0 := hno 0 (by simp)
    rw [List.drop_zero, List.cons_append] at h0
    rw [List.cons_append]
    simp only [searchM4, h0]
    exact ih (fun i hi => by
      have := hno (i + 1) (by simpa using Nat.succ_lt_succ hi)
      simpa [List.cons_append] using this)

lemma searchM4_none :
    ∀ l : List Char, (∀ i, i < l.length → matchM4 (l.drop i) = none) →
      searchM4 l = none := by
  intro l
  induction l with
  | nil =>
    intro _
    rfl
  | cons c rest ih =>
    intro hno
    have h0 := hno 0 (by simp)
    rw [List.drop_zero] at h0
    simp only [searchM4, h0]
    exact ih (fun i hi => by
      have := hno (i + 1) (by simpa using Nat.succ_lt_succ hi)
      simpa using this)

/-- Claim C9: for every filename whose lowercased character sequence
decomposes as a prefix (containing no earlier `m` followed by four digits),
the letter `m`, two year digits, two month digits and a suffix, period
derivation returns the string `20<YY>-<MM>` — the `m<YY><MM>` pattern is
recognised case-insensitively anywhere in the filename. -/
theorem C9_period_from_filename (now : Nat × Nat) (filename : String)
    (pre post : List Char) (y1 y2 m1 m2 : Char)
    (h1 : y1.isDigit = true) (h2 : y2.isDigit = true)
    (h3 : m1.isDigit = true) (h4 : m2.isDigit = true)
    (hdecomp : filename.data.map Char.toLower = pre ++ 'm' :: y1 :: y2 :: m1 :: m2 :: post)
    (hfirst : ∀ i, i < pre.length →
      matchM4 ((pre ++ 'm' :: y1 :: y2 :: m1 :: m2 :: post).drop i) = none) :
    extract_period_from_filename now filename = ⟨['2', '0', y1, y2, '-', m1, m2]⟩ := by
  unfold extract_period_from_filename
  rw [hdecomp, searchM4_append post y1 y2 m1 m2 h1 h2 h3 h4 pre hfirst]

/-- Witness for C9 at `ETF_M2506.xls` (uppercase `M`, exercising the
case-insensitive match): the derived period is `2025-06`. -/
theorem C9_period_from_filename_witness :
    ("ETF_M2506.xls" : String).data.map Char.toLower =
      ['e', 't', 'f', '_'] ++ 'm' :: '2' :: '5' :: '0' :: '6' :: ".xls".data ∧
    (∀ i, i < (['e', 't', 'f', '_'] : List Char).length →
      matchM4 ((['e', 't', 'f', '_'] ++
        'm' :: '2' :: '5' :: '0' :: '6' :: ".xls".data).drop i) = none) ∧
    extract_period_from_filename (2026, 10) "ETF_M2506.xls" = "2025-06" := by
  refine ⟨by decide, by decide, ?_⟩
  exact C9_period_from_filename (2026, 10) "ETF_M2506.xls" ['e', 't', 'f', '_'] ".xls".data
    '2' '5' '0' '6' (by decide) (by decide) (by decide) (by decide) (by decide) (by decide)

/-- Claim C10: period derivation is total — on a filename containing no
`m` followed by four digits it neither fails nor returns a sentinel, but
silently falls back to the current date, returning the run-time year and
zero-padded month joined by a dash (`YYYY-MM` for four-digit years), so the
file's data is attributed to the month the extractor runs in. -/
theorem C10_period_fallback_current_date (now : Nat × Nat) (filename : String)
    (h : ∀ i, i < (filename.data.map Char.toLower).length →
      matchM4 ((filename.data.map Char.toLower).drop i) = none) :
    extract_period_from_filename now filename = toString now.1 ++ "-" ++ pad2 now.2 := by
  unfold extract_period_from_filename
  rw [searchM4_none _ h]

/-- Witness for C10: `randomfile.xls` has no `m`-plus-four-digits substring,
and running in October 2026 attributes it to `2026-10`. -/
theorem C10_period_fallback_current_date_witness :
    (∀ i, i < (("randomfile.xls" : String).data.map Char.toLower).length →
      matchM4 ((("randomfile.xls" : String).data.map Char.toLower).drop i) = none) ∧
    extract_period_from_filename (2026, 10) "randomfile.xls" = "2026-10" := by
  refine ⟨by decide, ?_⟩
  rw [C10_period_fallback_current_date (2026, 10) "randomfile.xls" (by decide)]
  decide

end JMTD
